import Mathlib

/-!
Verification of the f451-comms channel-dispatch and attribute-validation core.

This file is a shallow embedding, in Lean 4, of the parts of the
`f451_comms` Python package that the checked properties talk about:

* `src/f451_comms/comms.py` — the `Comms` dispatcher: channel-list
  normalization, channel verification, alias mapping, enablement checks,
  channel-list resolution and `send_message` fan-out;
* `src/f451_comms/providers/provider.py` — the `Response` record, the
  shared `_make_response` helper, `verify_file` and `process_media_list`;
* `src/f451_comms/entity.py` — the `Entity` value object with its
  per-field validation and normalization, `to_dict`, and
  `dedupe_by_attribute`;
* `src/f451_comms/providers/email.py` — `process_recipient_list` and the
  `maxNum` handling of the `ToEmail`/`CcEmail`/`Attachments` processors;
* `src/f451_comms/providers/mailgun.py` — the `Tags` processor's
  `maxNum` handling and the error-collection skeleton of
  `Mailgun.send_message`;
* `src/f451_comms/providers/sms.py` / `twitter.py` — the `ToPhone` and
  `ToTwitter` processors' `maxNum` handling;
* `src/f451_comms/utils.py` — `convert_attrib_str_to_list` and the
  validators `is_valid_email`, `is_valid_phone`, `is_valid_twitter`.

Modelling conventions:

* Python strings are Lean `String`s; the Python string primitives used by
  the source (`str.strip`, `str.strip(chars)`, `str.split(sep)`,
  `str.lower`, `len`) are defined below over `List Char` with Python's
  semantics (`split` keeps empty fields, `strip` trims a character set
  from both ends).
* A Python `dict` used as a read-only lookup table (the channel registry
  and the channel-alias map) is an association list `List (String × α)`;
  lookup returns the first binding.  The registry value records only what
  the dispatcher observes: whether the entry is an initialized provider
  (truthy) or `None`, i.e. a `Bool`.
* A Python `set` of strings is modelled by `pySetList`, which removes
  exact duplicates keeping the first occurrence.  CPython iterates a set
  in an unspecified order; every property stated about set-based code is
  order-insensitive (lengths and element counts), so the fixed
  first-occurrence order is a sound canonical choice.
* Raising an exception is modelled with `Except String` (the payload is
  the exact message the source formats); functions that cannot raise stay
  pure.
* The filesystem consulted by `Path(...).exists()` is an explicit
  parameter `fs : String → Bool`.  Python's `Path("")` is `Path(".")`,
  and the current working directory of a running process exists, so
  `pyPathExists` maps the empty path to `true`.
-/

/-! ## Python string primitives -/

/-- Characters removed by Python's `str.strip()` (ASCII whitespace). -/
def isPySpace (c : Char) : Bool :=
  c = ' ' || c = '\t' || c = '\n' || c = '\r' || c = '\x0b' || c = '\x0c'

/-- Trim characters satisfying `p` from both ends of a character list. -/
def trimBothP (p : Char → Bool) (l : List Char) : List Char :=
  ((l.dropWhile p).reverse.dropWhile p).reverse

/-- Python `str.strip()`: trim whitespace from both ends. -/
def pyStrip (s : String) : String :=
  ⟨trimBothP isPySpace s.toList⟩

/-- Python `str.strip(chars)`: trim any of the given characters from both ends. -/
def pyStripChars (cs : List Char) (s : String) : String :=
  ⟨trimBothP (fun c => cs.contains c) s.toList⟩

/-- Python `str.lower()` (ASCII case folding, which covers every string the
source validates before lowering). -/
def pyLower (s : String) : String :=
  ⟨s.toList.map Char.toLower⟩

/-- Python `len` on a string: number of characters. -/
def pyLen (s : String) : Nat :=
  s.toList.length

/-- Split a character list on a separator character, keeping empty fields,
as Python's `str.split(sep)` does.  The accumulator holds the current
field in reverse. -/
def splitCharAux (sep : Char) : List Char → List Char → List (List Char)
  | [], acc => [acc.reverse]
  | c :: cs, acc =>
    if c = sep then acc.reverse :: splitCharAux sep cs []
    else splitCharAux sep cs (c :: acc)

/-- Python `str.split(sep)` for a one-character separator. -/
def pySplit (sep : Char) (s : String) : List String :=
  (splitCharAux sep s.toList []).map fun l => ⟨l⟩

/-- `true` when the string contains the given character. -/
def strContainsChar (c : Char) (s : String) : Bool :=
  s.toList.contains c

/-! ## Validators (`utils.py`) -/

/-- Split a character list at the first occurrence of `c`; `none` when `c`
does not occur. -/
def listBreakAt (c : Char) : List Char → Option (List Char × List Char)
  | [] => none
  | x :: xs =>
    if x = c then some ([], xs)
    else (listBreakAt c xs).map fun p => (x :: p.1, p.2)

/-- Characters allowed in the local part of `utils.is_valid_email`'s
regex: `[a-zA-Z0-9_.+-]`. -/
def emailLocalChar (c : Char) : Bool :=
  c.isAlpha || c.isDigit || c = '_' || c = '.' || c = '+' || c = '-'

/-- Characters allowed in the first domain label: `[a-zA-Z0-9-]`. -/
def emailDomChar (c : Char) : Bool :=
  c.isAlpha || c.isDigit || c = '-'

/-- Characters allowed after the first domain dot: `[a-zA-Z0-9-.]`. -/
def emailDomTailChar (c : Char) : Bool :=
  c.isAlpha || c.isDigit || c = '-' || c = '.'

/-- `utils.is_valid_email`: full match of
`^[a-zA-Z0-9_.+-]+@[a-zA-Z0-9-]+\.[a-zA-Z0-9-.]+$`.  None of the
character classes admits `@`, so a match has exactly one `@`; the first
domain label admits no dot, so it ends at the first dot after the `@`. -/
def is_valid_email (s : String) : Bool :=
  match listBreakAt '@' s.toList with
  | none => false
  | some (l, d) =>
    !l.isEmpty && l.all emailLocalChar && !d.contains '@' &&
      match listBreakAt '.' d with
      | none => false
      | some (d1, d2) =>
        !d1.isEmpty && d1.all emailDomChar && !d2.isEmpty && d2.all emailDomTailChar

/-- `utils.is_valid_phone`: full match of `^\+[1-9]\d{1,14}$`. -/
def is_valid_phone (s : String) : Bool :=
  match s.toList with
  | '+' :: d :: ds =>
    ('1' ≤ d && d ≤ '9') && ds.all Char.isDigit && !ds.isEmpty && ds.length ≤ 14
  | _ => false

/-- `utils.is_valid_twitter`: full match of `^[A-Za-z0-9_]{1,15}$`. -/
def is_valid_twitter (s : String) : Bool :=
  !s.toList.isEmpty && s.toList.length ≤ 15 &&
    s.toList.all fun c => c.isAlpha || c.isDigit || c = '_'

/-- `utils.convert_attrib_str_to_list` with the default delimiter `|` and
formatter `str`: split, strip each item, drop items that strip to the
empty string. -/
def convert_attrib_str_to_list (s : String) : List String :=
  (pySplit '|' s).filterMap fun item =>
    if pyStrip item = "" then none else some (pyStrip item)

/-! ## Association-list lookups (Python `dict` as observed by the dispatcher) -/

/-- First-binding lookup in an association list (Python `dict[key]` /
`key in dict` for the read-only maps the dispatcher holds). -/
def assocLookup {α : Type} : List (String × α) → String → Option α
  | [], _ => none
  | (k, v) :: rest, key => if k = key then some v else assocLookup rest key

/-- `key in dict`. -/
def assocMem {α : Type} (m : List (String × α)) (key : String) : Bool :=
  (assocLookup m key).isSome

/-! ## Channel selectors (`typeDefStringLists = Union[str, List[str], None]`)

`Comms._normalize_channel_list` receives `None`, a string, or a list whose
elements may or may not all be strings (it tests
`all(isinstance(ch, str) for ch in inChannels)`).  A list element is a
`PyVal`: either a string or some non-string value. -/

inductive PyVal where
  | str (s : String)
  | nonStr
deriving DecidableEq

/-- `isinstance(v, str)`. -/
def PyVal.isStr : PyVal → Bool
  | .str _ => true
  | .nonStr => false

/-- The string payload (only read behind an `isStr` guard, matching the
source, which indexes the list only after the `all(isinstance(...))`
check). -/
def PyVal.getStr : PyVal → String
  | .str s => s
  | .nonStr => ""

/-- A channel selector: `None`, a single (possibly `|`-delimited) string,
or a Python list. -/
inductive PyStrList where
  | none
  | ofStr (s : String)
  | ofList (l : List PyVal)
deriving DecidableEq

/-! ## `Comms` dispatcher state (`comms.py`)

The registry `self._channels` maps each canonical channel name to either
an initialized provider object (truthy) or `None`; the dispatcher only
ever reads key membership and truthiness, so the entry is a `Bool`
(`true` = initialized/ENABLED).  `self._channel_map` maps alias names to
canonical names.  `self._default_channels` is the pre-split default
channel list.  All three are built at construction and never mutated. -/

structure Comms where
  channels : List (String × Bool)
  channel_map : List (String × String)
  default_channels : List String
deriving DecidableEq

/-- `Comms._verify_channel(chName, force)` (comms.py lines 157–162):
in force (strict) mode the name must be non-empty and a registry key or an
alias key; otherwise only non-empty. -/
def verify_channel (c : Comms) (chName : String) (force : Bool) : Bool :=
  if force then
    chName != "" && (assocMem c.channels chName || assocMem c.channel_map chName)
  else
    chName != ""

/-- `Comms._normalize_channel_list(inChannels)` (comms.py lines 164–172):
a falsy selector gives `[]`; a non-empty string is split on `|` (keeping
empty fields, plain `str.split`); a non-empty list is returned as-is when
all elements are strings, else `[]`. -/
def normalize_channel_list : PyStrList → List String
  | .none => []
  | .ofStr s => if s = "" then [] else pySplit '|' s
  | .ofList l =>
    if l.isEmpty then []
    else if l.all PyVal.isStr then l.map PyVal.getStr else []

/-- `Comms.is_valid_channel(inChannels)` (comms.py lines 129–134):
`all(_verify_channel(ch, True))` over the normalized list, `False` when
the normalized list is empty. -/
def is_valid_channel (c : Comms) (inChannels : PyStrList) : Bool :=
  if (normalize_channel_list inChannels).isEmpty then false
  else (normalize_channel_list inChannels).all fun ch => verify_channel c ch true

/-- `Comms.is_enabled_channel(inChannels)` (comms.py lines 136–143):
`all(ch in self._channels and self._channels[ch])` over the normalized
list — note: no alias resolution — `False` when the list is empty. -/
def is_enabled_channel (c : Comms) (inChannels : PyStrList) : Bool :=
  if (normalize_channel_list inChannels).isEmpty then false
  else (normalize_channel_list inChannels).all fun ch =>
    (assocLookup c.channels ch).getD false

/-- `self._channel_map[item] if item in self._channel_map else item`
(comms.py line 334). -/
def channel_map_apply (c : Comms) (item : String) : String :=
  match assocLookup c.channel_map item with
  | some v => v
  | Option.none => item

/-- The `tmpList` computed by `Comms.process_channel_list` (comms.py lines
325–329): a list input is used as-is; anything else goes through
`utils.convert_attrib_str_to_list`, whose `str(inStr)` renders `None` as
`"None"`. -/
def input_tokens : PyStrList → List String
  | .ofList l => l.map PyVal.getStr
  | .ofStr s => convert_attrib_str_to_list s
  | .none => convert_attrib_str_to_list "None"

/-- `Comms.process_channel_list(inList, strict)` (comms.py lines 308–342),
the nested comprehension flattened into its map/filter stages:
strip each token, keep those passing `_verify_channel(·, strict)`, map
alias keys through the alias map, keep those passing
`is_enabled_channel`. -/
def process_channel_list (c : Comms) (inList : PyStrList) (strict : Bool) :
    List String :=
  (((((input_tokens inList).map pyStrip).filter
      fun t => verify_channel c t strict).map
    (channel_map_apply c)).filter fun ch => is_enabled_channel c (.ofStr ch))

/-! ## `Response` and the `Provider._make_response` helper (`provider.py`) -/

/-- `const.STATUS_SUCCESS`. -/
def STATUS_SUCCESS : String := "success"

/-- `const.STATUS_FAILURE`. -/
def STATUS_FAILURE : String := "failure"

/-- `provider.Response` (provider.py lines 111–168).  `errors` is `Any` in
the source; every in-repo caller passes either `None` or a list of error
strings, hence `Option (List String)`.  `data` and `response` are opaque
payloads, kept as strings. -/
structure Response where
  status : String
  provider : String
  data : String
  response : Option String
  errors : Option (List String)
deriving DecidableEq

/-- Python truthiness of the `errors` value (`None` and `[]` are falsy). -/
def errorsTruthy : Option (List String) → Bool
  | Option.none => false
  | some l => !l.isEmpty

/-- `Response.isOK` (provider.py lines 165–168): `self.errors is None`. -/
def Response.isOK (r : Response) : Bool :=
  r.errors = Option.none

/-- `Provider._make_response(data, response, errors)` (provider.py lines
211–241): `status = STATUS_FAILURE if errors else STATUS_SUCCESS`; all
arguments are stored unchanged. -/
def make_response (srvName : String) (data : String) (response : Option String)
    (errors : Option (List String)) : Response :=
  { status := if errorsTruthy errors then STATUS_FAILURE else STATUS_SUCCESS
    provider := srvName
    data := data
    response := response
    errors := errors }

/-- The response built by the tail of `Mailgun.send_message` (mailgun.py
lines 358–379): `reqErrors` starts as the empty list `[]`, collects the
string form of any caught `requests` exception, and is passed — always a
list, never `None` — to `_make_response`. -/
def mailgun_vendor_response (data : String) (response : Option String)
    (reqErrors : List String) : Response :=
  make_response "Mailgun" data response (some reqErrors)

/-! ## `Comms.send_message` (comms.py lines 344–379)

The per-channel provider call is abstracted as a function
`send : String → String → List Response` from (channel name, message) to
that provider's response list; the vendor wire call itself is outside the
modelled core.  `send_message` never writes any dispatcher attribute, so
the embedding is a pure function of the (read-only) `Comms` value. -/

inductive CommsError where
  | invalidProvider (msg : String)
deriving DecidableEq

/-- The channel-list argument: `kwargs.get(const.KWD_CHANNELS,
self._default_channels)` — the caller's selector when present, else the
default channel list (a Python list of strings). -/
def sel_or_default (c : Comms) (sel : Option PyStrList) : PyStrList :=
  match sel with
  | some s => s
  | Option.none => .ofList (c.default_channels.map PyVal.str)

/-- `Comms.send_message(msg, channels=sel)`: resolve strictly, raise
`InvalidProviderError` on empty resolution, else fan out to each resolved
channel whose registry entry is truthy, collecting the per-channel
response lists. -/
def send_message (c : Comms) (send : String → String → List Response)
    (msg : String) (sel : Option PyStrList) :
    Except CommsError (List (List Response)) :=
  let chList := sel_or_default c sel
  let channels := process_channel_list c chList true
  if channels.isEmpty then
    .error (.invalidProvider "Invalid communication channel(s)).")
  else
    .ok (channels.filterMap fun ch =>
      if (assocLookup c.channels ch).getD false then some (send ch msg)
      else Option.none)

/-! ## `verify_file` and `process_media_list` (`provider.py` lines 252–333) -/

/-- `Path(fName).exists()` against an abstract filesystem `fs`.
`Path("")` normalizes to `Path(".")`, and the working directory of a
running process exists, hence the empty path maps to `true`. -/
def pyPathExists (fs : String → Bool) (fName : String) : Bool :=
  if fName = "" then true else fs fName

/-- `provider.verify_file(fName, strict)` (provider.py lines 252–274):
in strict mode a missing or blank filename raises
`InvalidAttributeError(f"File \x27{fName or \x27<blank>\x27}\x27 does not exist.")`;
otherwise it returns whether the file exists (`False` for a name that
strips to empty). -/
def verify_file (fs : String → Bool) (fName : String) (strict : Bool) :
    Except String Bool :=
  if strict && (!(pyPathExists fs fName) || pyStrip fName = "") then
    .error ("File \x27" ++ (if fName = "" then "<blank>" else fName) ++
      "\x27 does not exist.")
  else
    .ok (if pyStrip fName != "" then pyPathExists fs fName else false)

/-- The comprehension
`[item.strip() for item in tmpList if verify_file(item.strip(), strict)]`
of `process_media_list`, evaluated left to right so a strict-mode raise
at one item aborts before later items are looked at. -/
def media_filter (fs : String → Bool) (strict : Bool) :
    List String → Except String (List String)
  | [] => .ok []
  | item :: rest => do
    let keep ← verify_file fs (pyStrip item) strict
    let tail ← media_filter fs strict rest
    pure (if keep then pyStrip item :: tail else tail)

/-- `provider.process_media_list(inList, maxNum, strict)` (provider.py
lines 306–333): list input used as-is, otherwise
`convert_attrib_str_to_list`; filter through `verify_file`; cap at
`maxNum`.  (`email.process_attachment_list` runs the identical
`verify_file` filter before reading file contents, so its raise/skip
behaviour on filenames is this function's.) -/
def process_media_list (fs : String → Bool) (inList : PyStrList)
    (maxNum : Nat) (strict : Bool) : Except String (List String) := do
  let tmpList := input_tokens inList
  let fileList ← media_filter fs strict tmpList
  pure (fileList.take maxNum)

/-! ## `Entity` (`entity.py`) -/

/-- The five normalized fields of `entity.Entity`. -/
structure Entity where
  name : String
  email : String
  phone : String
  slack : String
  twitter : String
deriving DecidableEq

/-- The `name` setter (entity.py lines 103–110): strip; a non-empty
result longer than 128 characters raises; store `clean.strip()`. -/
def set_name (val : String) : Except String String :=
  let clean := pyStrip val
  if clean != "" && pyLen clean > 128 then
    .error "Name cannot exceed 128 chars."
  else
    .ok (pyStrip clean)

/-- The `email` setter (entity.py lines 117–123): strip; a non-empty
result failing `is_valid_email` raises; store the stripped value. -/
def set_email (val : String) : Except String String :=
  let clean := pyStrip val
  if clean != "" && !is_valid_email clean then
    .error ("Invalid email address: " ++ clean)
  else
    .ok clean

/-- `re.sub("[^0-9+]", "", val)`: keep only digits and `+`. -/
def phone_clean (val : String) : String :=
  ⟨val.toList.filter fun c => c.isDigit || c = '+'⟩

/-- The `phone` setter (entity.py lines 130–139): strip non-digit/non-`+`
characters; a non-empty result raises unless its length (including the
`+`) is within 11–15 and it passes `is_valid_phone`. -/
def set_phone (val : String) : Except String String :=
  let clean := phone_clean val
  if clean != "" && (pyLen clean < 11 || pyLen clean > 15 || !is_valid_phone clean) then
    .error ("Invalid phone number: " ++ clean)
  else
    .ok clean

/-- The `slack` setter (entity.py lines 146–152): `val.strip("@ ")`; a
non-empty result longer than 128 characters raises. -/
def set_slack (val : String) : Except String String :=
  let clean := pyStripChars ['@', ' '] val
  if clean != "" && pyLen clean > 128 then
    .error "Name cannot exceed 128 chars."
  else
    .ok clean

/-- The `twitter` setter (entity.py lines 159–165): `val.strip("@ ")`; a
non-empty result failing `is_valid_twitter` raises. -/
def set_twitter (val : String) : Except String String :=
  let clean := pyStripChars ['@', ' '] val
  if clean != "" && !is_valid_twitter clean then
    .error ("Invalid Twitter username: " ++ clean)
  else
    .ok clean

/-- `Entity.__init__(name, email, phone, slack, twitter)` (entity.py lines
52–64): each field is assigned through its validating setter, in source
order; the first failing setter raises. -/
def mkEntity (name email phone slack twitter : String) : Except String Entity := do
  let n ← set_name name
  let e ← set_email email
  let p ← set_phone phone
  let s ← set_slack slack
  let t ← set_twitter twitter
  pure { name := n, email := e, phone := p, slack := s, twitter := t }

/-- `Entity.to_dict()` (entity.py lines 167–175): the five stored fields
under their Python dict keys, in source order. -/
def Entity.to_dict (e : Entity) : List (String × String) :=
  [("name", e.name), ("email", e.email), ("phone", e.phone),
   ("slack", e.slack), ("twitter", e.twitter)]

/-- `entity.dedupe_by_attribute(inList, "email")` (entity.py lines
181–203): walk the list with a seen-set of key values; keep an item only
when its `email` is truthy (non-empty) and not seen yet. -/
def dedupe_by_email_aux (seen : List String) : List Entity → List Entity
  | [] => []
  | e :: es =>
    if e.email != "" && !seen.contains e.email then
      e :: dedupe_by_email_aux (e.email :: seen) es
    else
      dedupe_by_email_aux seen es

/-- `dedupe_by_attribute(inList, "email")` with the initially empty
seen-set. -/
def dedupe_by_email (l : List Entity) : List Entity :=
  dedupe_by_email_aux [] l

/-! ## `email.process_recipient_list` (`email.py` lines 357–395) -/

/-- An element of a Python recipient list: an email-address string or an
`Entity`.  (`process_recipient_list` checks `isinstance(item, str)` /
`isinstance(item, Entity)` over the elements.) -/
inductive PyRecVal where
  | rstr (s : String)
  | rent (e : Entity)
deriving DecidableEq

def PyRecVal.isStr : PyRecVal → Bool
  | .rstr _ => true
  | .rent _ => false

def PyRecVal.isEnt : PyRecVal → Bool
  | .rstr _ => false
  | .rent _ => true

def PyRecVal.getStr : PyRecVal → String
  | .rstr s => s
  | .rent _ => ""

def PyRecVal.getEnt : PyRecVal → Entity
  | .rstr _ => { name := "", email := "", phone := "", slack := "", twitter := "" }
  | .rent e => e

/-- The `process_recipient_list` input: a string, an `Entity`, a Python
list, or any other value (which the source maps to `[]`). -/
inductive RecipientInput where
  | str (s : String)
  | ent (e : Entity)
  | vals (l : List PyRecVal)
  | other

/-- Python `set()` built from a list of strings: walk the list keeping
each element not already seen — exact-equality deduplication.  CPython
iterates the set in an unspecified order; this canonical model keeps the
first occurrence.  Every property stated about the set-based branch
below is order-insensitive (lengths and element counts). -/
def pySetAux (seen : List String) : List String → List String
  | [] => []
  | x :: xs =>
    if seen.contains x then pySetAux seen xs
    else x :: pySetAux (x :: seen) xs

/-- Python `set(inList)` for a list of strings, as a first-occurrence
list. -/
def pySetList (l : List String) : List String :=
  pySetAux [] l

/-- The all-strings branch of `process_recipient_list` (email.py lines
381-388): dedupe exactly via `set`, keep items whose stripped form passes
`is_valid_email`, lower-case and strip each kept item, construct an
`Entity(email=item)` per kept item, cap at `maxNum`. -/
def recipient_string_branch (maxNum : Nat) (l : List PyRecVal) :
    Except String (List Entity) := do
  let tmpSet := pySetList (l.map PyRecVal.getStr)
  let outList := tmpSet.filterMap fun item =>
    if is_valid_email (pyStrip item) then some (pyStrip (pyLower item))
    else Option.none
  let ents ← outList.mapM fun item => mkEntity "" item "" "" ""
  pure (ents.take maxNum)

/-- The all-Entities branch of `process_recipient_list` (email.py lines
391-393): dedupe by the `email` attribute (first occurrence), keep items
with a non-empty email, cap at `maxNum`. -/
def recipient_entity_branch (maxNum : Nat) (l : List Entity) :
    Except String (List Entity) :=
  .ok (((dedupe_by_email l).filter fun e => e.email != "").take maxNum)

/-- `email.process_recipient_list(inList, maxNum)` (email.py lines
357-395).  A string is converted via `convert_attrib_str_to_list`; an
`Entity` is wrapped in a list; a non-list non-string non-Entity gives
`[]`; a list goes to the all-strings branch when every element is a
string, to the all-Entities branch when every element is an `Entity`,
and to `[]` otherwise. -/
def process_recipient_list (inList : RecipientInput) (maxNum : Nat) :
    Except String (List Entity) :=
  match inList with
  | .other => .ok []
  | .str s => recipient_string_branch maxNum ((convert_attrib_str_to_list s).map PyRecVal.rstr)
  | .ent e => recipient_entity_branch maxNum [e]
  | .vals l =>
    if l.all PyRecVal.isStr then recipient_string_branch maxNum l
    else if l.all PyRecVal.isEnt then recipient_entity_branch maxNum (l.map PyRecVal.getEnt)
    else .ok []

/-! ## `maxNum` handling of the `AttributeProcessor` variants

Each variant stores `_minNum` and `_maxNum`; only those two fields matter
for the clamp invariant, so the state is a pair of integers (Python ints
are unbounded and may be negative). -/

structure ProcBounds where
  minNum : Int
  maxNum : Int
deriving DecidableEq

/-- `ToEmail.__init__` bound fields (email.py lines 50–64):
`_minNum = 1`, then `self.maxNum = maxNum` goes through the property
setter `max(self._minNum, val)` (email.py lines 96–100). -/
def ToEmail.init (maxNum : Int) : ProcBounds :=
  { minNum := 1, maxNum := max 1 maxNum }

/-- The `ToEmail.maxNum` setter (email.py lines 96–100). -/
def ToEmail.setMaxNum (s : ProcBounds) (val : Int) : ProcBounds :=
  { s with maxNum := max s.minNum val }

/-- `CcEmail.__init__` bound fields (email.py lines 130–144):
`_minNum = 0`, then `self._maxNum = maxNum` — a direct underscore-field
assignment that does NOT go through the clamping property setter. -/
def CcEmail.init (maxNum : Int) : ProcBounds :=
  { minNum := 0, maxNum := maxNum }

/-- The `CcEmail.maxNum` setter (email.py lines 166–170), which does
clamp. -/
def CcEmail.setMaxNum (s : ProcBounds) (val : Int) : ProcBounds :=
  { s with maxNum := max s.minNum val }

/-- `Attachments.__init__` bound fields (email.py lines 200–215):
`_minNum = 0`, then `self.maxNum = maxNum` via the clamping setter
(email.py lines 237–241). -/
def Attachments.init (maxNum : Int) : ProcBounds :=
  { minNum := 0, maxNum := max 0 maxNum }

/-- The `Attachments.maxNum` setter (email.py lines 237–241). -/
def Attachments.setMaxNum (s : ProcBounds) (val : Int) : ProcBounds :=
  { s with maxNum := max s.minNum val }

/-- `Media.__init__` bound fields (provider.py lines 59–70):
`_minNum = 0` and `_maxNum = max(self._minNum, maxNum)` inline; `Media`
has no `maxNum` setter. -/
def Media.init (maxNum : Int) : ProcBounds :=
  { minNum := 0, maxNum := max 0 maxNum }

/-- `Tags.__init__` bound fields (mailgun.py lines 72–83): `_minNum = 0`,
then `self.maxNum = maxNum` via the setter
`max(self._minNum, val, _MAX_TAG_NUM_)` with `_MAX_TAG_NUM_ = 3`
(mailgun.py lines 105–109). -/
def Tags.init (maxNum : Int) : ProcBounds :=
  { minNum := 0, maxNum := max (max 0 maxNum) 3 }

/-- The `Tags.maxNum` setter (mailgun.py lines 105–109). -/
def Tags.setMaxNum (s : ProcBounds) (val : Int) : ProcBounds :=
  { s with maxNum := max (max s.minNum val) 3 }

/-- `ToPhone.__init__` bound fields (sms.py lines 47–61): `_minNum = 1`,
then `self.maxNum = maxNum` via the clamping setter (sms.py lines
92–97). -/
def ToPhone.init (maxNum : Int) : ProcBounds :=
  { minNum := 1, maxNum := max 1 maxNum }

/-- The `ToPhone.maxNum` setter (sms.py lines 92–97). -/
def ToPhone.setMaxNum (s : ProcBounds) (val : Int) : ProcBounds :=
  { s with maxNum := max s.minNum val }

/-- `ToTwitter.__init__` bound fields (twitter.py lines 78–87):
`_minNum = 1`, then `self.maxNum = maxNum` via the clamping setter
(twitter.py lines 119–123). -/
def ToTwitter.init (maxNum : Int) : ProcBounds :=
  { minNum := 1, maxNum := max 1 maxNum }

/-- The `ToTwitter.maxNum` setter (twitter.py lines 119–123). -/
def ToTwitter.setMaxNum (s : ProcBounds) (val : Int) : ProcBounds :=
  { s with maxNum := max s.minNum val }

/-- `RecipientData.__init__` bound fields (mailgun.py lines 162–171):
`_minNum = 0`, then `self.maxNum = maxNum` via the clamping setter
(mailgun.py lines 193–197). -/
def RecipientData.init (maxNum : Int) : ProcBounds :=
  { minNum := 0, maxNum := max 0 maxNum }

/-! ## Spec-side definitions

The following definitions are written from the claims' words, not the
source; each is compared against the corresponding source-derived
definition. -/

/-- Claim-side channel resolution for strict mode: keep exactly the
tokens that, after trimming, are a canonical registered channel name or a
key of the alias map; replace alias keys by their canonical target,
leaving other tokens unchanged; keep only names whose registry entry is
an initialized (enabled) provider. -/
def spec_resolve_strict (c : Comms) (toks : List String) : List String :=
  ((((toks.map pyStrip).filter fun t =>
      assocMem c.channels t || assocMem c.channel_map t).map
    (channel_map_apply c)).filter fun ch => assocLookup c.channels ch = some true)

/-- Claim-side channel resolution for non-strict mode: every non-empty
trimmed token passes the verification step, then alias mapping and the
enablement filtering are applied as before. -/
def spec_resolve_nonstrict (c : Comms) (toks : List String) : List String :=
  ((((toks.map pyStrip).filter fun t => t != "").map
    (channel_map_apply c)).filter fun ch => is_enabled_channel c (.ofStr ch))

/-- Claim-side `is_enabled_channel`: true iff every token, AFTER alias
resolution through the channel-alias map, names a registered channel
whose registry entry is an initialized provider. -/
def spec_is_enabled_channel (c : Comms) (inChannels : PyStrList) : Bool :=
  if (normalize_channel_list inChannels).isEmpty then false
  else (normalize_channel_list inChannels).all fun ch =>
    (assocLookup c.channels (channel_map_apply c ch)).getD false

/-- Claim-side recipient deduplication: one entry per distinct non-empty
email, preserving the first-seen record. -/
def dedupe_first_seen : List Entity → List Entity
  | [] => []
  | e :: es =>
    if e.email = "" then dedupe_first_seen es
    else e :: dedupe_first_seen (es.filter fun x => x.email ≠ e.email)
termination_by l => l.length
decreasing_by
  · simp only [List.length_cons]; exact Nat.lt_succ_self _
  · simp only [List.length_cons]
    exact Nat.lt_succ_of_le (List.length_filter_le _ _)

/-! ## Sample dispatcher state and provider stub used by concrete instances -/

/-- A concrete dispatcher state: mailgun and slack configured (truthy
registry entries), twilio and twitter registered but unconfigured
(`None`), with the alias map of the repository's example config. -/
def sampleComms : Comms :=
  { channels := [("f451_mailgun", true), ("f451_slack", true),
                 ("f451_twilio", false), ("f451_twitter", false)]
    channel_map := [("email", "f451_mailgun"), ("sms", "f451_twilio"),
                    ("slack", "f451_slack")]
    default_channels := ["f451_twitter", "f451_slack"] }

/-- A trivial per-channel provider stub. -/
def sampleSend : String → String → List Response := fun _ _ => []

/-- A second, different provider stub. -/
def sampleSend' : String → String → List Response :=
  fun ch msg => [make_response ch msg Option.none Option.none]

/-- The filesystem of the attachment scenario: exactly `/real/file.txt`
exists. -/
def sampleFs : String → Bool := fun s => s == "/real/file.txt"

/-! ## Helper lemmas -/

theorem getD_false_eq_true_iff (o : Option Bool) :
    o.getD false = true ↔ o = some true := by
  cases o <;> simp

theorem getD_false_eq_decide (o : Option Bool) :
    o.getD false = decide (o = some true) := by
  cases o with
  | none => simp
  | some b => cases b <;> simp

theorem assocLookup_mem {α : Type} {m : List (String × α)} {k : String} {v : α}
    (h : assocLookup m k = some v) : (k, v) ∈ m := by
  induction m with
  | nil => simp [assocLookup] at h
  | cons p rest ih =>
    obtain ⟨pk, pv⟩ := p
    by_cases hk : pk = k
    · subst hk
      simp [assocLookup] at h
      subst h
      exact List.mem_cons_self _ _
    · simp [assocLookup, hk] at h
      exact List.mem_cons_of_mem _ (ih h)

theorem assocLookup_empty_key_none {α : Type} {m : List (String × α)}
    (h : ∀ p ∈ m, p.1 ≠ "") : assocLookup m "" = Option.none := by
  cases hl : assocLookup m "" with
  | none => rfl
  | some v =>
    exact absurd rfl (h _ (assocLookup_mem hl))

theorem splitCharAux_no_sep (sep : Char) (cs acc : List Char)
    (h : ∀ c ∈ cs, c ≠ sep) :
    splitCharAux sep cs acc = [acc.reverse ++ cs] := by
  induction cs generalizing acc with
  | nil => simp [splitCharAux]
  | cons c cs ih =>
    have hc : c ≠ sep := h c (List.mem_cons_self _ _)
    simp only [splitCharAux, if_neg hc]
    rw [ih (c :: acc) fun x hx => h x (List.mem_cons_of_mem _ hx)]
    simp

theorem pySplit_no_sep (sep : Char) (s : String)
    (h : strContainsChar sep s = false) : pySplit sep s = [s] := by
  have hmem : sep ∉ s.toList := by
    intro hmem
    rw [strContainsChar] at h
    have hc : s.toList.contains sep = true := List.elem_iff.mpr hmem
    rw [hc] at h
    exact absurd h (by simp)
  unfold pySplit
  rw [splitCharAux_no_sep]
  · simp only [List.reverse_nil, List.nil_append, List.map_cons, List.map_nil]
    cases s
    rfl
  · intro c hc hcs
    subst hcs
    exact hmem hc

/-! ## Claim C4 -/

/-- C4: for every `Response` built through the shared `_make_response`
helper, `status = "failure"` iff the `errors` argument is non-null and
non-empty; with a null (`None`) or empty (`[]`) errors value the status
is `"success"`. -/
theorem C4_make_response_status (srvName data : String) (response : Option String)
    (errors : Option (List String)) :
    ((make_response srvName data response errors).status = STATUS_FAILURE ↔
      (errors ≠ Option.none ∧ errors ≠ some [])) ∧
    ((errors = Option.none ∨ errors = some []) →
      (make_response srvName data response errors).status = STATUS_SUCCESS) := by
  cases errors with
  | none =>
    simp [make_response, errorsTruthy, STATUS_FAILURE, STATUS_SUCCESS]
  | some l =>
    cases l with
    | nil => simp [make_response, errorsTruthy, STATUS_FAILURE, STATUS_SUCCESS]
    | cons a t => simp [make_response, errorsTruthy, STATUS_FAILURE, STATUS_SUCCESS]

/-- Witness for C4: concrete instances of both directions. -/
theorem C4_make_response_status_witness :
    (make_response "Mailgun" "payload" Option.none (some ["HTTP 401"])).status =
      STATUS_FAILURE ∧
    (make_response "Mailgun" "payload" Option.none Option.none).status =
      STATUS_SUCCESS :=
  ⟨(C4_make_response_status "Mailgun" "payload" Option.none (some ["HTTP 401"])).1.mpr
      ⟨by decide, by decide⟩,
   (C4_make_response_status "Mailgun" "payload" Option.none Option.none).2
      (Or.inl rfl)⟩

/-! ## Claim C9 -/

/-- C9: `Response.isOK` is true iff the `errors` field is exactly `None`;
a response built by `_make_response` from the empty-but-non-`None` error
list — as `Mailgun.send_message` does after a successful vendor call —
has status `"success"` yet `isOK = false`, so `isOK` is not equivalent to
`status == "success"`. -/
theorem C9_isOK_iff_errors_none :
    (∀ (st p d : String) (r : Option String) (e : Option (List String)),
      (Response.mk st p d r e).isOK = true ↔ e = Option.none) ∧
    (∀ (d : String) (r : Option String),
      (mailgun_vendor_response d r []).status = STATUS_SUCCESS ∧
      (mailgun_vendor_response d r []).isOK = false) := by
  constructor
  · intro st p d r e
    simp [Response.isOK]
  · intro d r
    constructor
    · rfl
    · simp [mailgun_vendor_response, make_response, Response.isOK]

/-! ## Claim C6 — corrected -/

/-- C6 counterexample: with `/real/file.txt` existing and
`/missing/file.txt` absent, strict processing of
`["/real/file.txt", "", "/missing/file.txt"]` raises on the *blank*
entry, which is reached before `/missing/file.txt`; the raised message is
`File \x27<blank>\x27 does not exist.`, not one naming
`/missing/file.txt` as the claim states. -/
theorem C6_strict_error_counterexample :
    process_media_list sampleFs
        (.ofList [.str "/real/file.txt", .str "", .str "/missing/file.txt"])
        10 true =
      .error "File \x27<blank>\x27 does not exist." ∧
    ("File \x27<blank>\x27 does not exist." ≠
      "File \x27/missing/file.txt\x27 does not exist.") :=
  ⟨rfl, by decide⟩

/-- C6 amended: non-strict processing of
`["/real/file.txt", "", "/missing/file.txt"]` yields exactly
`["/real/file.txt"]`, silently skipping the blank and missing entries;
strict processing raises an invalid-attribute error at the first
offending entry in list order — here the blank one, reported as
`<blank>` — before `/missing/file.txt` is examined. -/
theorem C6_attachment_scenario :
    process_media_list sampleFs
        (.ofList [.str "/real/file.txt", .str "", .str "/missing/file.txt"])
        10 false = .ok ["/real/file.txt"] ∧
    process_media_list sampleFs
        (.ofList [.str "/real/file.txt", .str "", .str "/missing/file.txt"])
        10 true = .error "File \x27<blank>\x27 does not exist." :=
  ⟨rfl, rfl⟩

/-! ## Claim C7 — corrected -/

/-- C7 counterexample: `CcEmail.__init__` assigns `self._maxNum = maxNum`
directly, bypassing the clamping `maxNum` property setter, so
constructing a `CcEmail` with `maxNum = -1` stores an effective cap below
its `minNum` of 0, refuting "for every variant ... the stored effective
maxNum is always ≥ the variant's minNum". -/
theorem C7_ccemail_init_counterexample :
    (CcEmail.init (-1)).maxNum < (CcEmail.init (-1)).minNum := by decide

/-- C7 amended: every `maxNum` property *setter* clamps to ≥ the
variant's `minNum`, and every variant except `CcEmail` also clamps at
construction (in particular the required recipient lists `ToEmail`,
`ToPhone`, `ToTwitter` with `minNum = 1` turn a constructor `maxNum = 0`
into an effective cap of 1); `CcEmail.__init__` alone stores its
`maxNum` argument unclamped. -/
theorem C7_maxnum_clamping :
    (∀ v : Int,
      (ToEmail.init v).minNum ≤ (ToEmail.init v).maxNum ∧
      (ToPhone.init v).minNum ≤ (ToPhone.init v).maxNum ∧
      (ToTwitter.init v).minNum ≤ (ToTwitter.init v).maxNum ∧
      (Attachments.init v).minNum ≤ (Attachments.init v).maxNum ∧
      (Media.init v).minNum ≤ (Media.init v).maxNum ∧
      (Tags.init v).minNum ≤ (Tags.init v).maxNum ∧
      (RecipientData.init v).minNum ≤ (RecipientData.init v).maxNum) ∧
    (∀ (s : ProcBounds) (v : Int),
      s.minNum ≤ (ToEmail.setMaxNum s v).maxNum ∧
      s.minNum ≤ (CcEmail.setMaxNum s v).maxNum ∧
      s.minNum ≤ (Attachments.setMaxNum s v).maxNum ∧
      s.minNum ≤ (Tags.setMaxNum s v).maxNum ∧
      s.minNum ≤ (ToPhone.setMaxNum s v).maxNum ∧
      s.minNum ≤ (ToTwitter.setMaxNum s v).maxNum) ∧
    ((ToEmail.init 0).maxNum = 1 ∧ (ToPhone.init 0).maxNum = 1 ∧
      (ToTwitter.init 0).maxNum = 1) ∧
    (∀ v : Int, (CcEmail.init v).maxNum = v) := by
  refine ⟨?_, ?_, ⟨rfl, rfl, rfl⟩, fun _ => rfl⟩
  · intro v
    refine ⟨le_max_left _ _, le_max_left _ _, le_max_left _ _, le_max_left _ _,
      le_max_left _ _, ?_, le_max_left _ _⟩
    exact le_trans (le_max_left _ _) (le_max_left _ _)
  · intro s v
    refine ⟨le_max_left _ _, le_max_left _ _, le_max_left _ _, ?_,
      le_max_left _ _, le_max_left _ _⟩
    exact le_trans (le_max_left _ _) (le_max_left _ _)

/-! ## Claim C10 -/

/-- C10: a selector that is `None`, the empty string, the empty list, or
a list containing a non-string element normalizes to the empty list, and
therefore both `is_valid_channel` and `is_enabled_channel` return
`false` — the empty selector is rejected, never vacuously accepted. -/
theorem C10_empty_selector_rejected (c : Comms) :
    (normalize_channel_list .none = [] ∧
      is_valid_channel c .none = false ∧ is_enabled_channel c .none = false) ∧
    (normalize_channel_list (.ofStr "") = [] ∧
      is_valid_channel c (.ofStr "") = false ∧
      is_enabled_channel c (.ofStr "") = false) ∧
    (normalize_channel_list (.ofList []) = [] ∧
      is_valid_channel c (.ofList []) = false ∧
      is_enabled_channel c (.ofList []) = false) ∧
    (∀ l : List PyVal, (∃ v ∈ l, v.isStr = false) →
      normalize_channel_list (.ofList l) = [] ∧
      is_valid_channel c (.ofList l) = false ∧
      is_enabled_channel c (.ofList l) = false) := by
  refine ⟨⟨rfl, rfl, rfl⟩, ⟨rfl, rfl, rfl⟩, ⟨rfl, rfl, rfl⟩, ?_⟩
  intro l h
  obtain ⟨v, hv, hvs⟩ := h
  have hne : l.isEmpty = false := by
    cases l with
    | nil => simp at hv
    | cons a t => rfl
  have hall : l.all PyVal.isStr = false := by
    rw [Bool.eq_false_iff]
    intro hall
    rw [List.all_eq_true] at hall
    rw [hall v hv] at hvs
    exact absurd hvs (by simp)
  have hnorm : normalize_channel_list (.ofList l) = [] := by
    simp [normalize_channel_list, hne, hall]
  refine ⟨hnorm, ?_, ?_⟩
  · simp [is_valid_channel, hnorm]
  · simp [is_enabled_channel, hnorm]

/-- Witness for C10: the non-string-element case at a concrete list. -/
theorem C10_empty_selector_rejected_witness :
    (∃ v ∈ [PyVal.str "f451_mailgun", PyVal.nonStr], v.isStr = false) ∧
    (normalize_channel_list (.ofList [PyVal.str "f451_mailgun", PyVal.nonStr]) = [] ∧
      is_valid_channel sampleComms
        (.ofList [PyVal.str "f451_mailgun", PyVal.nonStr]) = false ∧
      is_enabled_channel sampleComms
        (.ofList [PyVal.str "f451_mailgun", PyVal.nonStr]) = false) :=
  ⟨by decide,
   (C10_empty_selector_rejected sampleComms).2.2.2
     [PyVal.str "f451_mailgun", PyVal.nonStr] (by decide)⟩

/-! ## Claim C3 — corrected -/

/-- C3 counterexample: with the alias `email ↦ f451_mailgun` and an
initialized (enabled) `f451_mailgun` registry entry, the claim-side
reading (alias resolution before the enablement check,
`spec_is_enabled_channel`) answers `true` for the selector `"email"`,
but the source's `is_enabled_channel` — which performs NO alias
resolution — answers `false`. -/
theorem C3_alias_counterexample :
    spec_is_enabled_channel sampleComms (.ofStr "email") = true ∧
    is_enabled_channel sampleComms (.ofStr "email") = false :=
  ⟨rfl, rfl⟩

/-- C3 amended: `is_enabled_channel(selector)` returns true iff the
selector normalizes to a non-empty token list and every raw token —
WITHOUT alias resolution — is a key of the channel registry whose entry
is an initialized provider; an alias token therefore yields false even
when its canonical target is enabled. -/
theorem C3_is_enabled_channel_characterization (c : Comms) (sel : PyStrList) :
    is_enabled_channel c sel = true ↔
      (normalize_channel_list sel ≠ [] ∧
        ∀ ch ∈ normalize_channel_list sel,
          assocLookup c.channels ch = some true) := by
  unfold is_enabled_channel
  cases h : normalize_channel_list sel with
  | nil => simp
  | cons a t =>
    simp only [List.isEmpty_cons, Bool.false_eq_true, if_false, List.all_eq_true,
      ne_eq, reduceCtorEq, not_false_eq_true, true_and]
    constructor
    · intro hall ch hch
      exact (getD_false_eq_true_iff _).mp (hall ch hch)
    · intro hall ch hch
      exact (getD_false_eq_true_iff _).mpr (hall ch hch)

/-! ## Claim C1 -/

/-- C1: whenever strict resolution of the caller's selector (or of the
default-channel list when the selector is omitted) yields the empty
list, `Comms.send_message` raises the invalid-provider error, and no
channel provider's `send_message` is invoked: the outcome is identical
for every provider function, i.e. independent of provider behaviour.
(The source method never writes any dispatcher attribute, so the
embedding is a pure function of the read-only `Comms` value and
dispatcher state is unchanged by construction.) -/
theorem C1_empty_resolution_raises (c : Comms) (msg : String)
    (sel : Option PyStrList) (send send' : String → String → List Response)
    (h : process_channel_list c (sel_or_default c sel) true = []) :
    send_message c send msg sel =
      .error (.invalidProvider "Invalid communication channel(s)).") ∧
    send_message c send msg sel = send_message c send' msg sel := by
  constructor <;> simp [send_message, h]

/-- Witness for C1: the selector `"nonexistent_channel"` resolves to the
empty list, so dispatch raises and is provider-independent. -/
theorem C1_empty_resolution_raises_witness :
    process_channel_list sampleComms
      (sel_or_default sampleComms (some (.ofStr "nonexistent_channel"))) true = [] ∧
    send_message sampleComms sampleSend "hi" (some (.ofStr "nonexistent_channel")) =
      .error (.invalidProvider "Invalid communication channel(s)).") ∧
    send_message sampleComms sampleSend "hi" (some (.ofStr "nonexistent_channel")) =
      send_message sampleComms sampleSend' "hi" (some (.ofStr "nonexistent_channel")) :=
  ⟨rfl,
   (C1_empty_resolution_raises sampleComms "hi" (some (.ofStr "nonexistent_channel"))
      sampleSend sampleSend' rfl).1,
   (C1_empty_resolution_raises sampleComms "hi" (some (.ofStr "nonexistent_channel"))
      sampleSend sampleSend' rfl).2⟩

/-! ## Claim C8 -/

/-- C8: constructing an `Entity` from five already-normalized valid
fields succeeds without modification, and `to_dict()` returns exactly the
same five fields under their dict keys — normalization is idempotent on
already-normalized input.  "Already normalized" means: each field is a
fixed point of its setter's normalization (strip for name/email,
digit-filter for phone, `@`/space-strip for slack/twitter) and, when
non-empty, passes its format validator / length bound. -/
theorem C8_entity_roundtrip (n e p s t : String)
    (hn : pyStrip n = n) (hnl : pyLen n ≤ 128)
    (he : pyStrip e = e) (he2 : e = "" ∨ is_valid_email e = true)
    (hp : phone_clean p = p)
    (hp2 : p = "" ∨ (11 ≤ pyLen p ∧ pyLen p ≤ 15 ∧ is_valid_phone p = true))
    (hs : pyStripChars ['@', ' '] s = s) (hsl : pyLen s ≤ 128)
    (ht : pyStripChars ['@', ' '] t = t) (ht2 : t = "" ∨ is_valid_twitter t = true) :
    mkEntity n e p s t = .ok (Entity.mk n e p s t) ∧
    (Entity.mk n e p s t).to_dict =
      [("name", n), ("email", e), ("phone", p), ("slack", s), ("twitter", t)] := by
  refine ⟨?_, rfl⟩
  have hcn : (n != "" && decide (pyLen n > 128)) = false := by
    simp [Nat.not_lt.mpr hnl]
  have hce : (e != "" && !is_valid_email e) = false := by
    rcases he2 with rfl | h
    · simp
    · simp [h]
  have hcp : (p != "" && (decide (pyLen p < 11) || decide (pyLen p > 15) ||
      !is_valid_phone p)) = false := by
    rcases hp2 with rfl | ⟨h1, h2, h3⟩
    · simp
    · simp [h3, Nat.not_lt.mpr h1, Nat.not_lt.mpr h2]
  have hcs : (s != "" && decide (pyLen s > 128)) = false := by
    simp [Nat.not_lt.mpr hsl]
  have hct : (t != "" && !is_valid_twitter t) = false := by
    rcases ht2 with rfl | h
    · simp
    · simp [h]
  unfold mkEntity set_name set_email set_phone set_slack set_twitter
  simp only [hn, he, hp, hs, ht]
  simp only [hcn, hce, hcp, hcs, hct, Bool.false_eq_true, if_false]
  rfl

/-- Witness for C8: a concrete fully-populated normalized identity
round-trips. -/
theorem C8_entity_roundtrip_witness :
    (pyStrip "Jane Doe" = "Jane Doe" ∧ pyLen "Jane Doe" ≤ 128 ∧
      pyStrip "jane@example.com" = "jane@example.com" ∧
      is_valid_email "jane@example.com" = true ∧
      phone_clean "+12025550123" = "+12025550123" ∧
      11 ≤ pyLen "+12025550123" ∧ pyLen "+12025550123" ≤ 15 ∧
      is_valid_phone "+12025550123" = true ∧
      pyStripChars ['@', ' '] "jane" = "jane" ∧ pyLen "jane" ≤ 128 ∧
      pyStripChars ['@', ' '] "jane_doe" = "jane_doe" ∧
      is_valid_twitter "jane_doe" = true) ∧
    mkEntity "Jane Doe" "jane@example.com" "+12025550123" "jane" "jane_doe" =
      .ok (Entity.mk "Jane Doe" "jane@example.com" "+12025550123" "jane" "jane_doe") ∧
    (Entity.mk "Jane Doe" "jane@example.com" "+12025550123" "jane" "jane_doe").to_dict =
      [("name", "Jane Doe"), ("email", "jane@example.com"),
       ("phone", "+12025550123"), ("slack", "jane"), ("twitter", "jane_doe")] :=
  ⟨by decide,
   (C8_entity_roundtrip "Jane Doe" "jane@example.com" "+12025550123" "jane" "jane_doe"
      (by decide) (by decide) (by decide) (Or.inr (by decide)) (by decide)
      (Or.inr (by decide)) (by decide) (by decide) (by decide)
      (Or.inr (by decide))).1,
   (C8_entity_roundtrip "Jane Doe" "jane@example.com" "+12025550123" "jane" "jane_doe"
      (by decide) (by decide) (by decide) (Or.inr (by decide)) (by decide)
      (Or.inr (by decide)) (by decide) (by decide) (by decide)
      (Or.inr (by decide))).2⟩


/-! ## Deduplication lemmas for `process_recipient_list` -/

theorem dedupe_aux_eq_first_seen (l : List Entity) :
    ∀ seen : List String,
      dedupe_by_email_aux seen l =
        dedupe_first_seen (l.filter fun e => !(seen.contains e.email)) := by
  induction l with
  | nil =>
    intro seen
    simp [dedupe_by_email_aux, dedupe_first_seen]
  | cons a l ih =>
    intro seen
    simp only [dedupe_by_email_aux, List.filter_cons]
    cases hc : seen.contains a.email with
    | true =>
      simp only [hc, Bool.not_true, Bool.and_false, Bool.false_eq_true, if_false]
      exact ih seen
    | false =>
      simp only [hc, Bool.not_false, Bool.and_true, if_true]
      by_cases he : a.email = ""
      · simp only [he, bne_self_eq_false, Bool.false_eq_true, if_false]
        rw [ih seen]
        rw [dedupe_first_seen]
        simp [he]
      · have hbne : (a.email != "") = true := by simp [he]
        simp only [hbne, if_true]
        rw [dedupe_first_seen]
        simp only [he, if_false]
        congr 1
        rw [ih (a.email :: seen)]
        congr 1
        rw [List.filter_filter]
        apply List.filter_congr
        intro x _
        cases hxa : x.email == a.email with
        | true =>
          have hEq : x.email = a.email := eq_of_beq hxa
          simp [List.contains_cons, hEq]
        | false =>
          have hne : x.email ≠ a.email := by
            intro hEq
            rw [hEq] at hxa
            simp at hxa
          simp [List.contains_cons, hxa, hne]

theorem dedupe_aux_email_nonempty (l : List Entity) :
    ∀ seen : List String, ∀ e ∈ dedupe_by_email_aux seen l, e.email ≠ "" := by
  induction l with
  | nil => intro seen e he; simp [dedupe_by_email_aux] at he
  | cons a l ih =>
    intro seen e he
    simp only [dedupe_by_email_aux] at he
    by_cases he2 : a.email = ""
    · simp only [he2, bne_self_eq_false, Bool.false_and, Bool.false_eq_true,
        if_false] at he
      exact ih seen e he
    · cases hc : seen.contains a.email with
      | true =>
        simp only [hc, Bool.not_true, Bool.and_false, Bool.false_eq_true,
          if_false] at he
        exact ih seen e he
      | false =>
        have hbne : (a.email != "") = true := by simp [he2]
        simp only [hc, hbne, Bool.not_false, Bool.and_true, if_true] at he
        rcases List.mem_cons.mp he with rfl | hmem
        · exact he2
        · exact ih (a.email :: seen) e hmem

theorem dedupe_by_email_eq_first_seen (l : List Entity) :
    dedupe_by_email l = dedupe_first_seen l := by
  unfold dedupe_by_email
  rw [dedupe_aux_eq_first_seen]
  congr 1
  exact List.filter_eq_self.mpr fun a _ => rfl

theorem dedupe_by_email_filter_nonempty (l : List Entity) :
    ((dedupe_by_email l).filter fun e => e.email != "") = dedupe_by_email l :=
  List.filter_eq_self.mpr fun a ha => by
    have := dedupe_aux_email_nonempty l [] a ha
    simpa using this

/-! ## Claim C5 — corrected -/

/-- C5 counterexample: `process_recipient_list` dedupes the all-strings
input through `set(inList)` BEFORE lower-casing, i.e. by exact string
equality, so `["a@x.com", "A@X.COM", "b@x.com"]` passes the set intact
and yields THREE recipient `Entity` records — the lowered email
`a@x.com` twice — not the 2 unique lower-cased recipients the claim
states.  (CPython's set order is unspecified; the stated length 3 and
the duplicate count 2 are order-independent.) -/
theorem C5_case_dedupe_counterexample :
    process_recipient_list
        (.vals [.rstr "a@x.com", .rstr "A@X.COM", .rstr "b@x.com"]) 100 =
      .ok [Entity.mk "" "a@x.com" "" "" "", Entity.mk "" "a@x.com" "" "" "",
           Entity.mk "" "b@x.com" "" "" ""] ∧
    List.length [Entity.mk "" "a@x.com" "" "" "", Entity.mk "" "a@x.com" "" "" "",
           Entity.mk "" "b@x.com" "" "" ""] = 3 ∧
    List.count "a@x.com"
        (List.map Entity.email
          [Entity.mk "" "a@x.com" "" "" "", Entity.mk "" "a@x.com" "" "" "",
           Entity.mk "" "b@x.com" "" "" ""]) = 2 :=
  ⟨rfl, rfl, by decide⟩

/-- C5 amended: the all-strings branch of `process_recipient_list`
deduplicates by EXACT string equality (via `set`) before lower-casing,
so `["a@x.com", "A@X.COM", "b@x.com"]` yields three lower-cased
recipients with the email `a@x.com` duplicated; the all-Entities branch
does hold the claimed property: it keeps exactly one `Entity` per
distinct non-empty email, preserving the first-seen record, capped at
`maxNum`. -/
theorem C5_recipient_dedupe :
    (process_recipient_list
        (.vals [.rstr "a@x.com", .rstr "A@X.COM", .rstr "b@x.com"]) 100 =
      .ok [Entity.mk "" "a@x.com" "" "" "", Entity.mk "" "a@x.com" "" "" "",
           Entity.mk "" "b@x.com" "" "" ""]) ∧
    (∀ (l : List Entity) (n : Nat),
      process_recipient_list (.vals (l.map PyRecVal.rent)) n =
        .ok ((dedupe_first_seen l).take n)) := by
  refine ⟨rfl, ?_⟩
  intro l n
  cases l with
  | nil =>
    simp [process_recipient_list, recipient_string_branch, pySetList,
      dedupe_first_seen, List.mapM, List.mapM.loop]
    rfl
  | cons a l =>
    have h1 : ((a :: l).map PyRecVal.rent).all PyRecVal.isStr = false := rfl
    have h2 : ((a :: l).map PyRecVal.rent).all PyRecVal.isEnt = true := by
      rw [List.all_eq_true]
      intro x hx
      obtain ⟨y, _, rfl⟩ := List.mem_map.mp hx
      rfl
    have h3 : ((a :: l).map PyRecVal.rent).map PyRecVal.getEnt = a :: l := by
      rw [List.map_map]
      have hid : ∀ m : List Entity,
          m.map (PyRecVal.getEnt ∘ PyRecVal.rent) = m := by
        intro m
        induction m with
        | nil => rfl
        | cons b m ihm => simp [PyRecVal.getEnt, Function.comp, ihm]
      exact hid (a :: l)
    simp only [process_recipient_list, h1, h2, Bool.false_eq_true, if_false,
      if_true, h3]
    unfold recipient_entity_branch
    rw [dedupe_by_email_filter_nonempty, dedupe_by_email_eq_first_seen]

/-! ## Claim C2 -/

/-- In strict mode `_verify_channel` keeps exactly the registry keys and
alias keys, provided no registered or alias name is the empty string. -/
theorem verify_strict_eq (c : Comms)
    (hreg : ∀ p ∈ c.channels, p.1 ≠ "")
    (hmapk : ∀ p ∈ c.channel_map, p.1 ≠ "") (t : String) :
    verify_channel c t true =
      (assocMem c.channels t || assocMem c.channel_map t) := by
  by_cases ht : t = ""
  · subst ht
    unfold verify_channel
    rw [if_pos rfl, assocMem, assocMem, assocLookup_empty_key_none hreg,
      assocLookup_empty_key_none hmapk]
    simp
  · unfold verify_channel
    rw [if_pos rfl]
    have hb : (t != "") = true := by simp [ht]
    rw [hb, Bool.true_and]

/-- On a single non-empty `|`-free name, `is_enabled_channel` is exactly
the registry check "key present with a truthy entry". -/
theorem is_enabled_single (c : Comms) (s : String) (hs : s ≠ "")
    (hp : strContainsChar '|' s = false) :
    is_enabled_channel c (.ofStr s) =
      decide (assocLookup c.channels s = some true) := by
  have hn : normalize_channel_list (.ofStr s) = [s] := by
    simp only [normalize_channel_list]
    rw [if_neg hs, pySplit_no_sep _ _ hp]
  unfold is_enabled_channel
  rw [hn]
  simp [getD_false_eq_decide]

/-- C2: with strict=true, `process_channel_list` returns exactly the
tokens that, after trimming, are a canonical registered channel name or
a key of the alias map, with alias keys replaced by their canonical
target and non-alias tokens unchanged, keeping only names whose registry
entry is an initialized (enabled) provider; with strict=false, every
non-empty trimmed token passes the verification step before alias
mapping and enablement filtering.  The hypotheses state the
well-formedness the real configuration guarantees: registered names and
alias keys are non-empty, and registered names and alias targets contain
no `|` (the alias map is built by splitting on `|`, and the registry
keys are fixed constants). -/
theorem C2_process_channel_list_resolution (c : Comms) (inp : PyStrList)
    (hreg : ∀ p ∈ c.channels, p.1 ≠ "" ∧ strContainsChar '|' p.1 = false)
    (hmap : ∀ p ∈ c.channel_map,
      p.1 ≠ "" ∧ p.2 ≠ "" ∧ strContainsChar '|' p.2 = false) :
    process_channel_list c inp true = spec_resolve_strict c (input_tokens inp) ∧
    process_channel_list c inp false =
      spec_resolve_nonstrict c (input_tokens inp) := by
  constructor
  · unfold process_channel_list spec_resolve_strict
    have hfc : ((input_tokens inp).map pyStrip).filter
          (fun t => verify_channel c t true) =
        ((input_tokens inp).map pyStrip).filter
          (fun t => assocMem c.channels t || assocMem c.channel_map t) :=
      List.filter_congr fun t _ =>
        verify_strict_eq c (fun p hp => (hreg p hp).1) (fun p hp => (hmap p hp).1) t
    rw [hfc]
    apply List.filter_congr
    intro ch hch
    obtain ⟨t, ht, rfl⟩ := List.mem_map.mp hch
    have hpred := (List.mem_filter.mp ht).2
    cases hma : assocLookup c.channel_map t with
    | some v =>
      have hv := hmap _ (assocLookup_mem hma)
      have happ : channel_map_apply c t = v := by
        unfold channel_map_apply
        rw [hma]
      rw [happ]
      exact is_enabled_single c v hv.2.1 hv.2.2
    | none =>
      have happ : channel_map_apply c t = t := by
        unfold channel_map_apply
        rw [hma]
      rw [happ]
      have hmem : assocMem c.channels t = true := by
        have h2 : assocMem c.channel_map t = false := by
          simp [assocMem, hma]
        rw [h2, Bool.or_false] at hpred
        exact hpred
      obtain ⟨bv, hbv⟩ := Option.isSome_iff_exists.mp hmem
      have hk := hreg _ (assocLookup_mem hbv)
      exact is_enabled_single c t hk.1 hk.2
  · unfold process_channel_list spec_resolve_nonstrict
    have hfc : ((input_tokens inp).map pyStrip).filter
          (fun t => verify_channel c t false) =
        ((input_tokens inp).map pyStrip).filter (fun t => t != "") :=
      List.filter_congr fun t _ => by
        unfold verify_channel
        simp
    rw [hfc]

/-- Witness for C2: the characterization at a concrete dispatcher state
and selector mixing an alias, a canonical name, junk and blanks. -/
theorem C2_process_channel_list_resolution_witness :
    (∀ p ∈ sampleComms.channels, p.1 ≠ "" ∧ strContainsChar '|' p.1 = false) ∧
    (∀ p ∈ sampleComms.channel_map,
      p.1 ≠ "" ∧ p.2 ≠ "" ∧ strContainsChar '|' p.2 = false) ∧
    process_channel_list sampleComms (.ofStr "email| junk || f451_slack ") true =
      spec_resolve_strict sampleComms
        (input_tokens (.ofStr "email| junk || f451_slack ")) ∧
    process_channel_list sampleComms (.ofStr "email| junk || f451_slack ") false =
      spec_resolve_nonstrict sampleComms
        (input_tokens (.ofStr "email| junk || f451_slack ")) :=
  ⟨by decide, by decide,
   (C2_process_channel_list_resolution sampleComms
      (.ofStr "email| junk || f451_slack ") (by decide) (by decide)).1,
   (C2_process_channel_list_resolution sampleComms
      (.ofStr "email| junk || f451_slack ") (by decide) (by decide)).2⟩
